import Mathlib

/-!
Verification development for `cgi-bin/gridex.py`, a script that indexes
GeoTIFF files in a directory tree and answers geometry-overlap queries
against the per-directory index file `_index.csv`.

Modelling conventions:
* Coordinates (geotransform coefficients, rectangle corners) are rationals.
* The external GDAL/OGR/OSR capabilities (raster opening, spatial-reference
  resolution, geometry parsing and intersection) are parameters of the
  embedded functions.  The script calls `gdal.UseExceptions()` at module
  load, so a failed `gdal.Open` (and a failed geometry parse) raises an
  exception rather than returning `None`; raising is modelled as an
  aborting result that propagates, carrying the rows already written.
* CSV fields are lists of characters; numeric rendering (Python `str`) is
  an abstract parameter `sh : ℚ → Field` / `shNat : ℕ → Field`.
-/

namespace Gridex

/-- CSV field: a run of characters. -/
abbrev Field := List Char

/-- Geotransform coefficients and raster dimensions, as returned by
`dataset.GetGeoTransform()`, `dataset.RasterXSize`, `dataset.RasterYSize`
for a successfully opened dataset.  The script reads coefficients 0, 1, 3
and 5 of the six-element geotransform. -/
structure RasterMeta where
  gt0 : ℚ
  gt1 : ℚ
  gt2 : ℚ
  gt3 : ℚ
  gt4 : ℚ
  gt5 : ℚ
  width : ℕ
  height : ℕ
deriving DecidableEq

/-- Bounding rectangle of a raster, fields named after the local variables
`min_x`, `max_x`, `min_y`, `max_y` of `create_index`. -/
structure Rect where
  min_x : ℚ
  max_x : ℚ
  min_y : ℚ
  max_y : ℚ
deriving DecidableEq

/-- Bounding-box computation of `create_index` (gridex.py lines 77-81):
`min_x = gt[0]`, `max_x = min_x + width*gt[1]`,
`min_y = gt[3] + height*gt[5]`, `max_y = gt[3]`. -/
def computeRect (m : RasterMeta) : Rect where
  min_x := m.gt0
  max_x := m.gt0 + (m.width : ℚ) * m.gt1
  min_y := m.gt3 + (m.height : ℚ) * m.gt5
  max_y := m.gt3

/-- Overlap test on two minimum bounding rectangles given as tuples
`(minX, maxX, minY, maxY)`, translated from `mbr_overlap`:
`not (p_max_x < f_min_x or p_min_x > f_max_x or p_max_y < f_min_y or
p_min_y > f_max_y)`. -/
def mbr_overlap (polygon_mbr file_mbr : ℚ × ℚ × ℚ × ℚ) : Bool :=
  let (p_min_x, p_max_x, p_min_y, p_max_y) := polygon_mbr
  let (f_min_x, f_max_x, f_min_y, f_max_y) := file_mbr
  !(decide (p_max_x < f_min_x) || decide (p_min_x > f_max_x) ||
    decide (p_max_y < f_min_y) || decide (p_min_y > f_max_y))

end Gridex

namespace Gridex

/-- C2 counterexample input: a raster whose geotransform has a positive
pixel-height coefficient `gt5 = 1` (south-up), one pixel tall. -/
def c2Meta : RasterMeta :=
  { gt0 := 0, gt1 := 1, gt2 := 0, gt3 := 0, gt4 := 0, gt5 := 1,
    width := 1, height := 1 }

/-- Concrete north-up raster metadata used to witness the amended C2. -/
def northUpMeta : RasterMeta :=
  { gt0 := 2, gt1 := 1, gt2 := 0, gt3 := 9, gt4 := 0, gt5 := -1,
    width := 3, height := 4 }

/-- Python `str.endswith`: suffix test on character lists. -/
def endswith (s suffix : Field) : Bool :=
  List.isSuffixOf suffix s

/-- Recognized raster extension `".tif"`. -/
def tifExt : Field :=
  ".tif".toList

/-- WKT polygon string built by `create_index` (gridex.py line 90):
`POLYGON ((min_x min_y, max_x min_y, max_x max_y, min_x max_y,
min_x min_y))`, with coordinates rendered by `sh`. -/
def wkt_polygon (sh : ℚ → Field) (min_x min_y max_x max_y : ℚ) : Field :=
  "POLYGON ((".toList ++
    sh min_x ++ ' ' :: sh min_y ++ ", ".toList ++
    sh max_x ++ ' ' :: sh min_y ++ ", ".toList ++
    sh max_x ++ ' ' :: sh max_y ++ ", ".toList ++
    sh min_x ++ ' ' :: sh max_y ++ ", ".toList ++
    sh min_x ++ ' ' :: sh min_y ++ "))".toList

/-- Rendering of one WKT coordinate pair: `x y` with a single blank. -/
def renderPoint (sh : ℚ → Field) (p : ℚ × ℚ) : Field :=
  sh p.1 ++ ' ' :: sh p.2

/-- Join a list of fragments with the separator `", "`. -/
def joinCommaSp : List Field → Field
  | [] => []
  | [f] => f
  | f :: fs => f ++ ", ".toList ++ joinCommaSp fs

/-- Generic WKT polygon rendering of an explicit vertex list; used to state
what ring `create_index` writes. -/
def renderPolygonWkt (sh : ℚ → Field) (pts : List (ℚ × ℚ)) : Field :=
  "POLYGON ((".toList ++ joinCommaSp (pts.map (renderPoint sh)) ++ "))".toList

/-- One row of the index file, fields as written by `create_index`:
`[file_id, filename, file_size, min_x, min_y, max_x, max_y, srid,
wkt_polygon]`. -/
structure IndexRecord where
  id : ℕ
  fileName : Field
  fileSize : ℕ
  x1 : ℚ
  y1 : ℚ
  x2 : ℚ
  y2 : ℚ
  srid : Field
  wkt : Field
deriving DecidableEq

/-- Closed ring traced by a record's stored footprint, in the corner order
of the claim: `(minX,minY), (maxX,minY), (maxX,maxY), (minX,maxY),
(minX,minY)`. -/
def ringCorners (r : IndexRecord) : List (ℚ × ℚ) :=
  [(r.x1, r.y1), (r.x2, r.y1), (r.x2, r.y2), (r.x1, r.y2), (r.x1, r.y1)]

/-- Outcome of `gdal.Open` on a candidate file, together with the data the
loop body then reads (`os.path.getsize`, `get_epsg_code`).  The script
calls `gdal.UseExceptions()` at module load, so an unopenable or
unparseable file makes `gdal.Open` raise a `RuntimeError` (`fail`) instead
of returning `None`; the `if dataset:` guard in the source only catches
the `None` convention of the non-exception mode. -/
inductive OpenResult where
  | ok (meta : RasterMeta) (fileSize : ℕ) (srid : Field)
  | fail
deriving DecidableEq

/-- Row written for one successfully opened raster (gridex.py lines
72-96): rectangle from `computeRect`, footprint from `wkt_polygon`. -/
def mkRecord (sh : ℚ → Field) (file_id : ℕ) (filename : Field)
    (file_size : ℕ) (meta : RasterMeta) (srid : Field) : IndexRecord :=
  let rect := computeRect meta
  { id := file_id, fileName := filename, fileSize := file_size,
    x1 := rect.min_x, y1 := rect.min_y, x2 := rect.max_x, y2 := rect.max_y,
    srid := srid,
    wkt := wkt_polygon sh rect.min_x rect.min_y rect.max_x rect.max_y }

/-- Loop of `create_index` over the directory listing, carrying the
`file_id` counter.  Returns the rows written to the index file and a flag
telling whether the loop completed normally; a `fail` from `gdal.Open`
raises, so the loop stops and nothing more is written (`false`). -/
def buildRows (sh : ℚ → Field) (openR : Field → OpenResult) :
    List Field → ℕ → List IndexRecord × Bool
  | [], _ => ([], true)
  | filename :: rest, file_id =>
    if endswith filename tifExt then
      match openR filename with
      | .fail => ([], false)
      | .ok meta size srid =>
        let p := buildRows sh openR rest (file_id + 1)
        (mkRecord sh file_id filename size meta srid :: p.1, p.2)
    else buildRows sh openR rest file_id

/-- Body of `create_index directory`: iterate over the listing starting
with `file_id = 0`.  The header row is always written first and is left
implicit; the result is the sequence of data rows on disk when the call
ends (normally or by propagating the GDAL exception). -/
def create_index (sh : ℚ → Field) (openR : Field → OpenResult)
    (listing : List Field) : List IndexRecord × Bool :=
  buildRows sh openR listing 0

/-- Concrete coordinate rendering used by closed witnesses. -/
def sh0 : ℚ → Field := fun _ => "0".toList

/-- Concrete raster metadata for an openable file. -/
def goodMeta : RasterMeta :=
  { gt0 := 0, gt1 := 1, gt2 := 0, gt3 := 10, gt4 := 0, gt5 := -1,
    width := 4, height := 5 }

/-- Concrete spatial reference identifier. -/
def srid4326 : Field := "4326".toList

/-- C1 failing input, directory listing: one unopenable file first, then a
valid raster. -/
def c1Listing : List Field := ["bad.tif".toList, "good.tif".toList]

/-- C1 provider: `good.tif` opens, every other candidate raises. -/
def c1Open : Field → OpenResult := fun f =>
  if f = "good.tif".toList then .ok goodMeta 100 srid4326 else .fail

/-- Provider for which every candidate opens; used by witnesses. -/
def open6 : Field → OpenResult := fun _ => .ok goodMeta 100 srid4326

/-- Concrete file name used by witnesses. -/
def aTif : Field := "a.tif".toList

/-- One directory as seen by `os.walk`: the listing of its candidate
files (the sentinel `_index.csv` never ends in `.tif`, so it is kept
separately) and the sentinel index file's rows when that file exists. -/
structure Dir where
  files : List Field
  index : Option (List IndexRecord)
deriving DecidableEq

/-- Per-directory body of `index_directories_recursively` (gridex.py lines
182-193): if the directory has at least one `.tif` file then either skip
it because `_index.csv` already exists, or run `create_index`; a directory
without `.tif` files is left untouched.  The Boolean records whether the
step finished without a propagating GDAL exception; on abort the
partially written index file remains on disk. -/
def indexDirStep (sh : ℚ → Field) (openR : Field → OpenResult) (d : Dir) :
    Dir × Bool :=
  if d.files.any (fun f => endswith f tifExt) then
    match d.index with
    | some _ => (d, true)
    | none =>
      let p := create_index sh openR d.files
      ({ files := d.files, index := some p.1 }, p.2)
  else (d, true)

/-- Walk of `index_directories_recursively` over the directories produced
by `os.walk`, processed in sequence; an exception raised while indexing
one directory propagates and leaves the remaining directories
unprocessed. -/
def index_directories_recursively (sh : ℚ → Field)
    (openR : Field → OpenResult) : List Dir → List Dir × Bool
  | [] => ([], true)
  | d :: ds =>
    let p := indexDirStep sh openR d
    if p.2 then
      let q := index_directories_recursively sh openR ds
      (p.1 :: q.1, q.2)
    else (p.1 :: ds, false)

/-- Directory already carrying a sentinel index file, used by witnesses. -/
def wDir1 : Dir := { files := [aTif], index := some [] }

/-- Directory holding no `.tif` file, used by witnesses. -/
def wDir2 : Dir := { files := ["x.txt".toList], index := none }

/-- Header row written by `create_index` and consumed by `csv.DictReader`:
`ID;FileName;FileSize;x1;y1;x2;y2;SRID;Geometry4326`. -/
def headerNames : List String :=
  ["ID", "FileName", "FileSize", "x1", "y1", "x2", "y2", "SRID", "Geometry4326"]

/-- Column access of `csv.DictReader`: the field of `row` in the position
the header assigns to `name`. -/
def getCol (row : List Field) (name : String) : Field :=
  row.getD (headerNames.indexOf name) []

/-- Fields of the row `create_index` writes for a record, in file order;
numbers are rendered by `shNat` (Python `str` on int) and `sh` (Python
`str` on float). -/
def encodeRecord (sh : ℚ → Field) (shNat : ℕ → Field) (r : IndexRecord) :
    List Field :=
  [shNat r.id, r.fileName, shNat r.fileSize,
   sh r.x1, sh r.y1, sh r.x2, sh r.y2, r.srid, r.wkt]

/-- Serialization of one row by `csv.writer` with delimiter `';'` for
fields that need no quoting: fields joined by the delimiter. -/
def joinSemi : List Field → Field
  | [] => []
  | [f] => f
  | f :: fs => f ++ ';' :: joinSemi fs

/-- Parse of one line by `csv.reader` with delimiter `';'` for unquoted
fields: split at every `';'`. -/
def splitSemi : Field → List Field
  | [] => [[]]
  | c :: cs =>
    if c = ';' then [] :: splitSemi cs
    else
      match splitSemi cs with
      | [] => [[c]]
      | f :: fs => (c :: f) :: fs

/-- Failure modes of `query_index`, raised as exceptions by the script:
a missing `_index.csv` (`FileNotFoundError` from `open`), a query
geometry `ogr.CreateGeometryFromJson` cannot parse, and an index row
whose WKT `ogr.CreateGeometryFromWkt` cannot parse. -/
inductive QueryError where
  | notIndexed
  | malformedGeometry
  | corruptIndex
deriving DecidableEq

/-- Row loop of `query_index` (gridex.py lines 142-151): parse each row's
`Geometry4326` field, test intersection with the query geometry, and
collect the `FileName` fields of the intersecting rows in row order. -/
def queryRows {Geom : Type} (parseWkt : Field → Option Geom)
    (intersects : Geom → Geom → Bool) (query_geom : Geom) :
    List (List Field) → Except QueryError (List Field)
  | [] => .ok []
  | row :: rest =>
    match parseWkt (getCol row "Geometry4326") with
    | none => .error .corruptIndex
    | some file_geom =>
      match queryRows parseWkt intersects query_geom rest with
      | .error e => .error e
      | .ok fs =>
        .ok (if intersects query_geom file_geom
             then getCol row "FileName" :: fs else fs)

/-- Body of `query_index directory query_geometry`: the query geometry is
parsed first (line 136, before the index file is opened), then the index
file is opened (`none` models an absent `_index.csv`), then the rows are
scanned.  With exceptions enabled, a parse failure raises before any
result list is built. -/
def query_index {Geom : Type} (parseJson : String → Option Geom)
    (parseWkt : Field → Option Geom) (intersects : Geom → Geom → Bool)
    (query_geometry : String) (file : Option (List (List Field))) :
    Except QueryError (List Field) :=
  match parseJson query_geometry with
  | none => .error .malformedGeometry
  | some query_geom =>
    match file with
    | none => .error .notIndexed
    | some rows => queryRows parseWkt intersects query_geom rows

/-- GeometryEngine instance over `ℕ` used by closed witnesses: a geometry
is a number, parsing a WKT field takes its length, and `a` intersects `b`
when `a ≤ b`. -/
def parseWktN : Field → Option ℕ := fun f => some f.length

/-- Query-geometry parser of the `ℕ` engine: every GeoJSON string parses
to `1`. -/
def parseJsonN : String → Option ℕ := fun _ => some 1

/-- Intersection test of the `ℕ` engine. -/
def intersectsN : ℕ → ℕ → Bool := fun a b => a ≤ b

/-- Failing query-geometry parser over `Unit`, used by witnesses. -/
def pjNone : String → Option Unit := fun _ => none

/-- Succeeding query-geometry parser over `Unit`, used by witnesses. -/
def pjSome : String → Option Unit := fun _ => some ()

/-- Trivial WKT parser over `Unit`, used by witnesses. -/
def pwU : Field → Option Unit := fun _ => some ()

/-- Trivial intersection test over `Unit`, used by witnesses. -/
def inU : Unit → Unit → Bool := fun _ _ => true

/-- Index row whose stored geometry field has length 1, used by
witnesses: the `ℕ` engine reports it as intersecting the query. -/
def rowA : List Field :=
  [['0'], aTif, ['1'], ['0'], ['0'], ['0'], ['0'], srid4326, ['5']]

/-- Index row whose stored geometry field is empty, used by witnesses:
the `ℕ` engine reports it as not intersecting the query. -/
def rowB : List Field :=
  [['1'], "b.tif".toList, ['2'], ['0'], ['0'], ['0'], ['0'], srid4326, []]

/-- Copy of `rowA` whose ID, FileSize, coordinate and SRID columns all
differ, used to witness that the query only reads FileName and
Geometry4326. -/
def rowA2 : List Field :=
  [['7'], aTif, ['9'], ['3'], ['3'], ['4'], ['4'], "0000".toList, ['5']]

/-- Numeral rendering used by closed witnesses. -/
def shNat0 : ℕ → Field := fun _ => "1".toList

/-- Concrete index record used by the round-trip witness. -/
def rW : IndexRecord :=
  { id := 0, fileName := aTif, fileSize := 100, x1 := 0, y1 := 0,
    x2 := 1, y2 := 1, srid := srid4326,
    wkt := "POLYGON ((0 0, 1 0, 1 1, 0 1, 0 0))".toList }

end Gridex

namespace Gridex

/-- C2 (counterexample): the claim that the constructed bounding rectangle
always satisfies `minY ≤ maxY` fails on the raster `c2Meta`, whose
pixel-height coefficient is `+1`: the code computes
`min_y = gt3 + height*gt5 = 1` and `max_y = gt3 = 0`, so `min_y > max_y`.
The construction assumes a negative pixel height rather than enforcing the
order. -/
theorem computeRect_c2_invariant_fails :
    ¬ ((computeRect c2Meta).min_y ≤ (computeRect c2Meta).max_y) := by
  norm_num [computeRect, c2Meta]

/-- C2 (amended): for rasters whose pixel-width coefficient is nonnegative
and whose pixel-height coefficient is nonpositive (the north-up
convention), the rectangle computed by `create_index` satisfies
`min_x ≤ max_x` and `min_y ≤ max_y`.  The code does not enforce this
for other geotransforms. -/
theorem computeRect_invariant_of_north_up (m : RasterMeta)
    (h1 : 0 ≤ m.gt1) (h5 : m.gt5 ≤ 0) :
    (computeRect m).min_x ≤ (computeRect m).max_x ∧
    (computeRect m).min_y ≤ (computeRect m).max_y := by
  constructor
  · have hw : (0 : ℚ) ≤ (m.width : ℚ) * m.gt1 :=
      mul_nonneg (by positivity) h1
    simp only [computeRect]
    linarith
  · have hh : (m.height : ℚ) * m.gt5 ≤ 0 :=
      mul_nonpos_of_nonneg_of_nonpos (by positivity) h5
    simp only [computeRect]
    linarith

/-- C2 witness: the amended invariant evaluated on a concrete north-up
raster. -/
theorem computeRect_invariant_witness :
    (computeRect northUpMeta).min_x ≤ (computeRect northUpMeta).max_x ∧
    (computeRect northUpMeta).min_y ≤ (computeRect northUpMeta).max_y :=
  computeRect_invariant_of_north_up northUpMeta
    (by norm_num [northUpMeta]) (by norm_num [northUpMeta])

/-- C3: for rectangles `(minX, maxX, minY, maxY)` satisfying the
`min ≤ max` invariant on both axes, `mbr_overlap a b` returns `true`
exactly when `a` and `b` are not disjoint along either axis; equal
boundary coordinates (touching edges or corners) therefore count as
overlap.  The function is a total Boolean function by construction. -/
theorem mbr_overlap_iff (a b : ℚ × ℚ × ℚ × ℚ)
    (ha1 : a.1 ≤ a.2.1) (ha2 : a.2.2.1 ≤ a.2.2.2)
    (hb1 : b.1 ≤ b.2.1) (hb2 : b.2.2.1 ≤ b.2.2.2) :
    mbr_overlap a b = true ↔
      ¬ (a.2.1 < b.1 ∨ a.1 > b.2.1 ∨ a.2.2.2 < b.2.2.1 ∨ a.2.2.1 > b.2.2.2) := by
  obtain ⟨amnx, amxx, amny, amxy⟩ := a
  obtain ⟨bmnx, bmxx, bmny, bmxy⟩ := b
  simp only [mbr_overlap, Bool.not_eq_true', Bool.or_eq_false_iff,
    decide_eq_false_iff_not, not_or, gt_iff_lt]
  tauto

/-- C3 witness: two unit squares touching along the edge `x = 1` satisfy
the invariant, and `mbr_overlap` reports them as overlapping. -/
theorem mbr_overlap_iff_witness :
    ((0 : ℚ) ≤ 1 ∧ (0 : ℚ) ≤ 1 ∧ (1 : ℚ) ≤ 2 ∧ (0 : ℚ) ≤ 1) ∧
    (mbr_overlap (0, 1, 0, 1) (1, 2, 0, 1) = true ↔
      ¬ ((1 : ℚ) < 1 ∨ (0 : ℚ) > 2 ∨ (1 : ℚ) < 0 ∨ (0 : ℚ) > 1)) ∧
    mbr_overlap (0, 1, 0, 1) (1, 2, 0, 1) = true :=
  ⟨by norm_num,
   mbr_overlap_iff (0, 1, 0, 1) (1, 2, 0, 1)
     (by norm_num) (by norm_num) (by norm_num) (by norm_num),
   by norm_num [mbr_overlap]⟩

/-- Helper: the f-string of `create_index` renders exactly the five-corner
closed ring. -/
lemma wkt_polygon_eq_render (sh : ℚ → Field) (mnx mny mxx mxy : ℚ) :
    wkt_polygon sh mnx mny mxx mxy =
      renderPolygonWkt sh [(mnx, mny), (mxx, mny), (mxx, mxy), (mnx, mxy), (mnx, mny)] := by
  simp [wkt_polygon, renderPolygonWkt, joinCommaSp, renderPoint, List.append_assoc]

/-- Helper: every row produced by the `create_index` loop stores the
five-corner closed ring of its own rectangle. -/
lemma buildRows_wkt_ring (sh : ℚ → Field) (openR : Field → OpenResult)
    (listing : List Field) (i : ℕ) (r : IndexRecord)
    (hr : r ∈ (buildRows sh openR listing i).1) :
    r.wkt = renderPolygonWkt sh (ringCorners r) := by
  induction listing generalizing i with
  | nil => simp [buildRows] at hr
  | cons f fs ih =>
    rw [buildRows] at hr
    by_cases hf : endswith f tifExt
    · simp only [hf, if_true] at hr
      cases hopen : openR f with
      | fail => rw [hopen] at hr; simp at hr
      | ok meta size srid =>
        rw [hopen] at hr
        simp only [List.mem_cons] at hr
        rcases hr with rfl | hr
        · simp only [mkRecord, ringCorners]
          exact wkt_polygon_eq_render sh _ _ _ _
        · exact ih (i + 1) hr
    · simp only [hf, if_false] at hr
      exact ih i hr

/-- C6: every record written by `create_index` stores in its geometry
field a WKT polygon whose ring is exactly the five coordinate pairs
`(minX,minY), (maxX,minY), (maxX,maxY), (minX,maxY), (minX,minY)` built
from the record's own rectangle: a closed ring (first vertex equals last)
of length five. -/
theorem create_index_wkt_ring (sh : ℚ → Field) (openR : Field → OpenResult)
    (listing : List Field) (r : IndexRecord)
    (hr : r ∈ (create_index sh openR listing).1) :
    r.wkt = renderPolygonWkt sh (ringCorners r) ∧
    (ringCorners r).length = 5 ∧
    (ringCorners r).head? = (ringCorners r).getLast? := by
  refine ⟨buildRows_wkt_ring sh openR listing 0 r hr, ?_, ?_⟩
  · simp [ringCorners]
  · simp [ringCorners]

/-- C6 witness: the single record indexed from a one-raster directory is
in the index and satisfies the ring property. -/
theorem create_index_wkt_ring_witness :
    mkRecord sh0 0 aTif 100 goodMeta srid4326 ∈ (create_index sh0 open6 [aTif]).1 ∧
    ((mkRecord sh0 0 aTif 100 goodMeta srid4326).wkt =
      renderPolygonWkt sh0 (ringCorners (mkRecord sh0 0 aTif 100 goodMeta srid4326)) ∧
    (ringCorners (mkRecord sh0 0 aTif 100 goodMeta srid4326)).length = 5 ∧
    (ringCorners (mkRecord sh0 0 aTif 100 goodMeta srid4326)).head? =
      (ringCorners (mkRecord sh0 0 aTif 100 goodMeta srid4326)).getLast?) := by
  have hm : mkRecord sh0 0 aTif 100 goodMeta srid4326 ∈ (create_index sh0 open6 [aTif]).1 := by
    have he : endswith aTif tifExt = true := rfl
    simp [create_index, buildRows, open6, he]
  exact ⟨hm, create_index_wkt_ring sh0 open6 [aTif] _ hm⟩

/-- C1: with `gdal.UseExceptions()` in force, the failing `gdal.Open` on
`bad.tif` raises before any row is written, so indexing the directory
containing the unopenable `bad.tif` and the valid `good.tif` aborts with
an empty row list — not the one-record index with id 0 that the
skip-silently policy would give. -/
theorem create_index_aborts_on_unopenable :
    create_index sh0 c1Open c1Listing = ([], false) := rfl

/-- Helper: a directory step that succeeded is stable under a second
step. -/
lemma indexDirStep_stable (sh : ℚ → Field) (openR : Field → OpenResult)
    (d d' : Dir) (h : indexDirStep sh openR d = (d', true)) :
    indexDirStep sh openR d' = (d', true) := by
  by_cases ha : d.files.any (fun f => endswith f tifExt) = true
  · cases hi : d.index with
    | some rows =>
      have hd : d' = d := by
        simp [indexDirStep, ha, hi] at h
        exact h.symm
      subst hd
      simp [indexDirStep, ha, hi]
    | none =>
      have hd : d' = { files := d.files, index := some (create_index sh openR d.files).1 } := by
        simp [indexDirStep, ha, hi] at h
        exact h.1.symm
      subst hd
      simp [indexDirStep, ha]
  · have hd : d' = d := by
      simp [indexDirStep, ha] at h
      exact h.symm
    subst hd
    simp [indexDirStep, ha]

/-- C7: the directory indexer is idempotent.  A directory that already
carries a sentinel index file is skipped with its content unchanged,
regardless of its raster contents; consequently, when a walk over a tree
completes normally, walking the resulting tree again changes nothing. -/
theorem index_directories_recursively_idempotent (sh : ℚ → Field)
    (openR : Field → OpenResult) :
    (∀ d : Dir, d.index.isSome = true → indexDirStep sh openR d = (d, true)) ∧
    (∀ ds ds' : List Dir,
      index_directories_recursively sh openR ds = (ds', true) →
      index_directories_recursively sh openR ds' = (ds', true)) := by
  constructor
  · intro d hd
    obtain ⟨rows, hrows⟩ := Option.isSome_iff_exists.mp hd
    by_cases ha : d.files.any (fun f => endswith f tifExt) = true
    · simp [indexDirStep, ha, hrows]
    · simp [indexDirStep, ha]
  · intro ds
    induction ds with
    | nil =>
      intro ds' h
      simp only [index_directories_recursively] at h
      obtain ⟨rfl, -⟩ := Prod.mk.injEq .. ▸ Prod.mk.inj h.symm
      simp [index_directories_recursively]
    | cons d ds ih =>
      intro ds' h
      rw [index_directories_recursively] at h
      by_cases hp : (indexDirStep sh openR d).2 = true
      · simp only [hp, if_true] at h
        have h1 : ds' = (indexDirStep sh openR d).1 ::
            (index_directories_recursively sh openR ds).1 := (Prod.mk.inj h.symm).1
        have h2 : (index_directories_recursively sh openR ds).2 = true :=
          (Prod.mk.inj h).2
        have hstep : indexDirStep sh openR d = ((indexDirStep sh openR d).1, true) := by
          rw [← hp]
        have hstable := indexDirStep_stable sh openR d _ hstep
        have htail := ih (index_directories_recursively sh openR ds).1
          (by rw [← h2])
        subst h1
        rw [index_directories_recursively, hstable]
        simp [htail]
      · simp only [hp, if_false] at h
        exact absurd (Prod.mk.inj h).2 (by simp)

/-- C7 witness: a directory with a pre-existing index is skipped
unchanged, and re-walking an already completed two-directory tree is a
no-op. -/
theorem index_directories_recursively_idempotent_witness :
    indexDirStep sh0 open6 wDir1 = (wDir1, true) ∧
    index_directories_recursively sh0 open6 [wDir1, wDir2] =
      ([wDir1, wDir2], true) :=
  ⟨(index_directories_recursively_idempotent sh0 open6).1 wDir1 rfl,
   (index_directories_recursively_idempotent sh0 open6).2
     [wDir1, wDir2] [wDir1, wDir2] rfl⟩

/-- Helper: every pair in the zip of a list with itself is diagonal. -/
lemma zip_self_eq {α : Type} (l : List α) (p : α × α) (hp : p ∈ l.zip l) :
    p.2 = p.1 := by
  induction l with
  | nil => simp at hp
  | cons a l ih =>
    rcases List.mem_cons.mp hp with rfl | hp
    · rfl
    · exact ih hp

/-- Helper: a directory containing no `.tif` file is left untouched by
the per-directory step. -/
lemma indexDirStep_no_tif (sh : ℚ → Field) (openR : Field → OpenResult)
    (d : Dir) (h : ∀ f ∈ d.files, endswith f tifExt = false) :
    indexDirStep sh openR d = (d, true) := by
  have ha : d.files.any (fun f => endswith f tifExt) = false := by
    rw [List.any_eq_false]
    intro f hf
    simp [h f hf]
  simp [indexDirStep, ha]

/-- C8: during the tree walk, a visited directory none of whose files
ends in `.tif` is skipped entirely — in particular no sentinel index
file is ever created for it. -/
theorem index_directories_no_tif_untouched (sh : ℚ → Field)
    (openR : Field → OpenResult) (ds ds' : List Dir) (b : Bool)
    (h : index_directories_recursively sh openR ds = (ds', b))
    (pq : Dir × Dir) (hpq : pq ∈ ds.zip ds')
    (hno : ∀ f ∈ pq.1.files, endswith f tifExt = false) :
    pq.2 = pq.1 := by
  induction ds generalizing ds' b with
  | nil => simp only [index_directories_recursively] at h; obtain ⟨rfl, -⟩ :=
      Prod.mk.inj h.symm; simp at hpq
  | cons d ds ih =>
    rw [index_directories_recursively] at h
    by_cases hp : (indexDirStep sh openR d).2 = true
    · simp only [hp, if_true] at h
      have h1 : ds' = (indexDirStep sh openR d).1 ::
          (index_directories_recursively sh openR ds).1 := (Prod.mk.inj h.symm).1
      subst h1
      rcases List.mem_cons.mp (by simpa [List.zip_cons_cons] using hpq) with hhead | htail
      · have hd : pq.1 = d ∧ pq.2 = (indexDirStep sh openR d).1 := by
          cases pq; exact ⟨congrArg Prod.fst hhead, congrArg Prod.snd hhead⟩
        rw [hd.1, hd.2]
        have := indexDirStep_no_tif sh openR d (hd.1 ▸ hno)
        rw [this]
      · exact ih _ _ (by rw [Prod.mk.eta]) htail
    · simp only [hp, if_false] at h
      have h1 : ds' = (indexDirStep sh openR d).1 :: ds := (Prod.mk.inj h.symm).1
      subst h1
      rcases List.mem_cons.mp (by simpa [List.zip_cons_cons] using hpq) with hhead | htail
      · have hd : pq.1 = d ∧ pq.2 = (indexDirStep sh openR d).1 := by
          cases pq; exact ⟨congrArg Prod.fst hhead, congrArg Prod.snd hhead⟩
        rw [hd.1, hd.2]
        have := indexDirStep_no_tif sh openR d (hd.1 ▸ hno)
        rw [this]
      · exact zip_self_eq ds pq htail

/-- C8 witness: walking a tree whose only directory has no `.tif` file
leaves that directory without an index. -/
theorem index_directories_no_tif_untouched_witness :
    (wDir2, wDir2).2 = (wDir2, wDir2).1 :=
  index_directories_no_tif_untouched sh0 open6 [wDir2] [wDir2] true rfl
    (wDir2, wDir2) (by simp) (by decide)

/-- Helper: when every row's stored WKT parses, the query loop returns
exactly the FileName column of the intersecting rows, in row order. -/
lemma queryRows_filter_map {Geom : Type} (parseWkt : Field → Option Geom)
    (intersects : Geom → Geom → Bool) (qg : Geom)
    (rows : List (List Field))
    (hw : ∀ row ∈ rows, (parseWkt (getCol row "Geometry4326")).isSome = true) :
    queryRows parseWkt intersects qg rows =
      Except.ok ((rows.filter (fun row =>
          (parseWkt (getCol row "Geometry4326")).any (fun g => intersects qg g))).map
        (fun row => getCol row "FileName")) := by
  induction rows with
  | nil => simp [queryRows]
  | cons row rest ih =>
    obtain ⟨g, hg⟩ := Option.isSome_iff_exists.mp (hw row (by simp))
    rw [queryRows, hg, ih (fun r hr => hw r (by simp [hr]))]
    by_cases hi : intersects qg g = true
    · simp [List.filter_cons, hg, hi]
    · simp [List.filter_cons, hg, hi]

/-- C4: for a parseable query geometry and an index whose stored WKT
footprints all parse, `query_index` returns exactly the FileName of each
row whose footprint intersects the query geometry, as the order- and
multiplicity-preserving filter-and-project of the index rows. -/
theorem query_index_filter_order {Geom : Type}
    (parseJson : String → Option Geom) (parseWkt : Field → Option Geom)
    (intersects : Geom → Geom → Bool) (qs : String) (qg : Geom)
    (rows : List (List Field)) (hq : parseJson qs = some qg)
    (hw : ∀ row ∈ rows, (parseWkt (getCol row "Geometry4326")).isSome = true) :
    query_index parseJson parseWkt intersects qs (some rows) =
      Except.ok ((rows.filter (fun row =>
          (parseWkt (getCol row "Geometry4326")).any (fun g => intersects qg g))).map
        (fun row => getCol row "FileName")) := by
  simp only [query_index, hq]
  exact queryRows_filter_map parseWkt intersects qg rows hw

/-- C4 witness: with the `ℕ` engine, a two-row index returns the one
intersecting row's FileName. -/
theorem query_index_filter_order_witness :
    query_index parseJsonN parseWktN intersectsN "q" (some [rowA, rowB]) =
      Except.ok ((([rowA, rowB].filter (fun row =>
          (parseWktN (getCol row "Geometry4326")).any (fun g => intersectsN 1 g))).map
        (fun row => getCol row "FileName"))) :=
  query_index_filter_order parseJsonN parseWktN intersectsN "q" 1 [rowA, rowB]
    rfl (by decide)

/-- C5: `query_index` fails with MalformedGeometry when the query
geometry does not parse (whatever the state of the index file), and with
NotIndexed when the geometry parses but the sentinel index file is
absent; in both cases an error, not a result list, is returned. -/
theorem query_index_failure_modes {Geom : Type}
    (parseJson : String → Option Geom) (parseWkt : Field → Option Geom)
    (intersects : Geom → Geom → Bool) (qs : String) :
    (parseJson qs = none → ∀ file,
      query_index parseJson parseWkt intersects qs file =
        Except.error QueryError.malformedGeometry) ∧
    (∀ qg : Geom, parseJson qs = some qg →
      query_index parseJson parseWkt intersects qs none =
        Except.error QueryError.notIndexed) := by
  constructor
  · intro h file
    simp [query_index, h]
  · intro qg h
    simp [query_index, h]

/-- C5 witness: both failure modes evaluated on concrete engines. -/
theorem query_index_failure_modes_witness :
    query_index pjNone pwU inU "bad" (some [rowA]) =
      Except.error QueryError.malformedGeometry ∧
    query_index pjSome pwU inU "ok" none =
      Except.error QueryError.notIndexed :=
  ⟨(query_index_failure_modes pjNone pwU inU "bad").1 rfl (some [rowA]),
   (query_index_failure_modes pjSome pwU inU "ok").2 () rfl⟩

/-- Helper: splitting a semicolon-free run yields that run alone. -/
lemma splitSemi_no_semi (f : Field) (h : ';' ∉ f) : splitSemi f = [f] := by
  induction f with
  | nil => rfl
  | cons c cs ih =>
    have hc : ¬ (c = ';') := fun hc => h (hc ▸ List.mem_cons_self c cs)
    have hcs : ';' ∉ cs := fun hm => h (List.mem_cons_of_mem c hm)
    rw [splitSemi, if_neg hc, ih hcs]

/-- Helper: splitting past a semicolon-free field peels it off. -/
lemma splitSemi_append (f : Field) (h : ';' ∉ f) (cs : Field) :
    splitSemi (f ++ ';' :: cs) = f :: splitSemi cs := by
  induction f with
  | nil =>
    simp [splitSemi]
  | cons a f ih =>
    have ha : ¬ (a = ';') := fun ha => h (ha ▸ List.mem_cons_self a f)
    have hf : ';' ∉ f := fun hm => h (List.mem_cons_of_mem a hm)
    rw [List.cons_append, splitSemi, if_neg ha, ih hf]

/-- Helper: joining semicolon-free fields and splitting again is the
identity. -/
lemma splitSemi_joinSemi (fs : List Field) (h1 : fs ≠ [])
    (h : ∀ f ∈ fs, ';' ∉ f) : splitSemi (joinSemi fs) = fs := by
  induction fs with
  | nil => exact absurd rfl h1
  | cons f fs ih =>
    cases fs with
    | nil => exact splitSemi_no_semi f (h f (by simp))
    | cons g gs =>
      have hj : joinSemi (f :: g :: gs) = f ++ ';' :: joinSemi (g :: gs) := rfl
      rw [hj, splitSemi_append f (h f (by simp)) _,
        ih (by simp) (fun x hx => h x (List.mem_cons_of_mem f hx))]

/-- C9: a record row written with the semicolon-delimited format reads
back field-for-field identical — the header line round-trips, the data row
round-trips, and the columns recovered under the header
`ID;FileName;FileSize;x1;y1;x2;y2;SRID;Geometry4326` are exactly the
written fileName, fileSize, rectangle coordinates, SRID and footprint
WKT renderings. -/
theorem index_row_round_trip (sh : ℚ → Field) (shNat : ℕ → Field)
    (r : IndexRecord) (h : ∀ f ∈ encodeRecord sh shNat r, ';' ∉ f) :
    splitSemi (joinSemi (headerNames.map String.toList)) =
      headerNames.map String.toList ∧
    splitSemi (joinSemi (encodeRecord sh shNat r)) = encodeRecord sh shNat r ∧
    getCol (splitSemi (joinSemi (encodeRecord sh shNat r))) "FileName" = r.fileName ∧
    getCol (splitSemi (joinSemi (encodeRecord sh shNat r))) "FileSize" = shNat r.fileSize ∧
    getCol (splitSemi (joinSemi (encodeRecord sh shNat r))) "x1" = sh r.x1 ∧
    getCol (splitSemi (joinSemi (encodeRecord sh shNat r))) "y1" = sh r.y1 ∧
    getCol (splitSemi (joinSemi (encodeRecord sh shNat r))) "x2" = sh r.x2 ∧
    getCol (splitSemi (joinSemi (encodeRecord sh shNat r))) "y2" = sh r.y2 ∧
    getCol (splitSemi (joinSemi (encodeRecord sh shNat r))) "SRID" = r.srid ∧
    getCol (splitSemi (joinSemi (encodeRecord sh shNat r))) "Geometry4326" = r.wkt := by
  have hsplit := splitSemi_joinSemi (encodeRecord sh shNat r)
    (by simp [encodeRecord]) h
  refine ⟨by decide, hsplit, ?_, ?_, ?_, ?_, ?_, ?_, ?_, ?_⟩ <;>
    rw [hsplit] <;> rfl

/-- C9 witness: the round trip evaluated on a concrete record whose
fields are semicolon-free. -/
theorem index_row_round_trip_witness :
    splitSemi (joinSemi (headerNames.map String.toList)) =
      headerNames.map String.toList ∧
    splitSemi (joinSemi (encodeRecord sh0 shNat0 rW)) = encodeRecord sh0 shNat0 rW ∧
    getCol (splitSemi (joinSemi (encodeRecord sh0 shNat0 rW))) "FileName" = rW.fileName ∧
    getCol (splitSemi (joinSemi (encodeRecord sh0 shNat0 rW))) "FileSize" = shNat0 rW.fileSize ∧
    getCol (splitSemi (joinSemi (encodeRecord sh0 shNat0 rW))) "x1" = sh0 rW.x1 ∧
    getCol (splitSemi (joinSemi (encodeRecord sh0 shNat0 rW))) "y1" = sh0 rW.y1 ∧
    getCol (splitSemi (joinSemi (encodeRecord sh0 shNat0 rW))) "x2" = sh0 rW.x2 ∧
    getCol (splitSemi (joinSemi (encodeRecord sh0 shNat0 rW))) "y2" = sh0 rW.y2 ∧
    getCol (splitSemi (joinSemi (encodeRecord sh0 shNat0 rW))) "SRID" = rW.srid ∧
    getCol (splitSemi (joinSemi (encodeRecord sh0 shNat0 rW))) "Geometry4326" = rW.wkt :=
  index_row_round_trip sh0 shNat0 rW (by decide)

/-- C10: the query result is a function of the FileName and Geometry4326
columns only — two index files whose rows agree on these two columns give
the same result for every query geometry, however their ID, FileSize,
coordinate and SRID columns differ. -/
theorem query_index_reads_only_columns {Geom : Type}
    (parseJson : String → Option Geom) (parseWkt : Field → Option Geom)
    (intersects : Geom → Geom → Bool) (qs : String)
    (rows1 rows2 : List (List Field))
    (h : List.Forall₂ (fun r1 r2 =>
      getCol r1 "FileName" = getCol r2 "FileName" ∧
      getCol r1 "Geometry4326" = getCol r2 "Geometry4326") rows1 rows2) :
    query_index parseJson parseWkt intersects qs (some rows1) =
      query_index parseJson parseWkt intersects qs (some rows2) := by
  have hrows : ∀ qg : Geom, queryRows parseWkt intersects qg rows1 =
      queryRows parseWkt intersects qg rows2 := by
    intro qg
    induction h with
    | nil => rfl
    | cons hpair htail ih =>
      rw [queryRows, queryRows, hpair.1, hpair.2, ih]
  cases hq : parseJson qs with
  | none => simp [query_index, hq]
  | some qg => simp [query_index, hq, hrows qg]

/-- C10 witness: replacing the ID, FileSize, coordinate and SRID columns
of the single index row leaves the query result unchanged. -/
theorem query_index_reads_only_columns_witness :
    query_index parseJsonN parseWktN intersectsN "q" (some [rowA]) =
      query_index parseJsonN parseWktN intersectsN "q" (some [rowA2]) :=
  query_index_reads_only_columns parseJsonN parseWktN intersectsN "q"
    [rowA] [rowA2] (List.Forall₂.cons ⟨rfl, rfl⟩ List.Forall₂.nil)

end Gridex
